import Mathlib

set_option maxHeartbeats 1000000
set_option maxRecDepth 100000
set_option linter.unusedVariables false

/-!
Verification of the HEVC (hvc1 / hvcC) sample-entry codec of this
repository: a shallow embedding of src/mp4box/hvc1.rs together with
theorems about its encode and decode behavior.

Streams are modelled as an in-memory list of bytes with an absolute cursor,
matching the seekable in-memory cursor the code reads from.  Machine
integers are modelled as Nat, with explicit reductions modulo a power of
two exactly where the source casts or masks.
-/

/-- Big-endian byte encoding of the low n bytes of v, as emitted by the
byteorder write calls; the built-in truncation matches the source casts. -/
def beBytes : Nat → Nat → List Nat
  | 0, _ => []
  | n + 1, v => beBytes n (v / 256) ++ [v % 256]

/-- Big-endian value of a byte list, as decoded by the byteorder read calls. -/
def beVal (l : List Nat) : Nat :=
  l.foldl (fun acc b => acc * 256 + b) 0

/-- Modelled from the spec: the seekable byte stream the codec reads and
writes (an in-memory cursor: a byte list with an absolute position). -/
structure ByteStream where
  data : List Nat
  pos : Nat
deriving DecidableEq

/-- The two error kinds of the crate that this module can produce. -/
inductive Mp4Error where
  | ioError : Mp4Error
  | invalidData : String → Mp4Error
deriving DecidableEq

abbrev ReadResult (α : Type) := Except Mp4Error (α × ByteStream)

deriving instance DecidableEq for Except

/-- Read exactly n bytes (std read_exact semantics: short data is an error). -/
def readBytesExact (r : ByteStream) (n : Nat) : ReadResult (List Nat) :=
  if r.pos + n ≤ r.data.length then
    .ok ((r.data.drop r.pos).take n, ⟨r.data, r.pos + n⟩)
  else
    .error .ioError

/-- byteorder read of an n-byte big-endian unsigned integer. -/
def readBE (n : Nat) (r : ByteStream) : ReadResult Nat :=
  match readBytesExact r n with
  | .error e => .error e
  | .ok (l, r1) => .ok (beVal l, r1)

def read_u8 (r : ByteStream) : ReadResult Nat := readBE 1 r

def read_u16 (r : ByteStream) : ReadResult Nat := readBE 2 r

def read_u32 (r : ByteStream) : ReadResult Nat := readBE 4 r

def read_u64 (r : ByteStream) : ReadResult Nat := readBE 8 r

/-- read_i16 in the source: two bytes are consumed and every caller discards
the value, so the two-complement interpretation never matters. -/
def read_i16 (r : ByteStream) : ReadResult Nat := readBE 2 r

/-- Modelled from the spec: the generic box-header size, a 4-byte declared
size plus a 4-byte type tag (the helper lives outside this module). -/
def HEADER_SIZE : Nat := 8

/-- Modelled from the spec: stream-position capture at box entry (the
position when the payload decoder starts, minus the already-read header). -/
def box_start (r : ByteStream) : Nat := r.pos - HEADER_SIZE

/-- Modelled from the spec: bounded forward skip (a relative seek). -/
def skip_bytes (r : ByteStream) (n : Nat) : ByteStream := ⟨r.data, r.pos + n⟩

/-- Modelled from the spec: seek to an absolute position, used to advance to
declared-start + declared-size after a payload decode. -/
def skip_bytes_to (r : ByteStream) (p : Nat) : ByteStream := ⟨r.data, p⟩

/-- The 4-byte type tag of the hvc1 sample entry. -/
def hvc1TypeTag : Nat := 0x68766331

/-- The 4-byte type tag of the hvcC decoder-configuration record. -/
def hvcCTypeTag : Nat := 0x68766343

/-- Modelled from the spec: the generic box header (type tag, declared size). -/
structure BoxHeader where
  name : Nat
  size : Nat
deriving DecidableEq

/-- Modelled from the spec: header read, a 4-byte big-endian declared size
followed by the 4-byte type tag. -/
def BoxHeader.read (r : ByteStream) : ReadResult BoxHeader :=
  match read_u32 r with
  | .error e => .error e
  | .ok (sz, r1) =>
    match read_u32 r1 with
    | .error e => .error e
    | .ok (nm, r2) => .ok ({ name := nm, size := sz }, r2)

/-- Modelled from the spec: header write, the mirror of BoxHeader.read. -/
def BoxHeader.write (h : BoxHeader) : List Nat :=
  beBytes 4 h.size ++ beBytes 4 h.name

/-- Modelled from the spec: the 16.16 fixed-point helper, a 32-bit raw value
holding 16 integer bits and 16 fractional bits. -/
structure FixedPointU16 where
  raw : Nat
deriving DecidableEq

/-- Modelled from the spec: build a 16.16 value from its integer part. -/
def FixedPointU16.new (v : Nat) : FixedPointU16 := ⟨v % 65536 * 65536⟩

/-- Modelled from the spec: wrap a raw 32-bit value unchanged. -/
def FixedPointU16.new_raw (v : Nat) : FixedPointU16 := ⟨v % 4294967296⟩

def FixedPointU16.raw_value (f : FixedPointU16) : Nat := f.raw

def FixedPointU16.value (f : FixedPointU16) : Nat := f.raw / 65536

/-- NalUnit from the source: a length-prefixed opaque byte blob. -/
structure NalUnit where
  bytes : List Nat
deriving DecidableEq

def NalUnit.size (u : NalUnit) : Nat := 2 + u.bytes.length

/-- NalUnit::read from the source.  Note the source calls Read::read, not
read_exact, on a zero-initialized buffer of the declared length and ignores
the returned count: on an in-memory stream this fills only the available
bytes and leaves the tail zero, without raising any error. -/
def NalUnit.read (r : ByteStream) : ReadResult NalUnit :=
  match read_u16 r with
  | .error e => .error e
  | .ok (length, r1) =>
    let avail := min length (r1.data.length - r1.pos)
    .ok ({ bytes := (r1.data.drop r1.pos).take length ++ List.replicate (length - avail) 0 },
         ⟨r1.data, r1.pos + avail⟩)

/-- NalUnit::write from the source: a 16-bit big-endian length, then the raw
bytes (the length is cast with an `as u16`, hence reduced modulo 65536). -/
def NalUnit.write (u : NalUnit) : List Nat :=
  beBytes 2 u.bytes.length ++ u.bytes

/-- HvcCBox from the source. -/
structure HvcCBox where
  general_configuration : List Nat
  num_temporal_layer : Nat
  chroma_idc : Nat
  bit_depth_luma_minus8 : Nat
  bit_depth_chroma_minus8 : Nat
  temporal_id_nested : Bool
  video_parameter_sets : List NalUnit
  sequence_parameter_sets : List NalUnit
  picture_parameter_sets : List NalUnit
  supplementary_enhancement_information : List NalUnit
deriving DecidableEq

/-- derive(Default) on HvcCBox: zeroed fields and empty sequences. -/
def HvcCBox.default : HvcCBox :=
  { general_configuration := List.replicate 12 0
    num_temporal_layer := 0
    chroma_idc := 0
    bit_depth_luma_minus8 := 0
    bit_depth_chroma_minus8 := 0
    temporal_id_nested := false
    video_parameter_sets := []
    sequence_parameter_sets := []
    picture_parameter_sets := []
    supplementary_enhancement_information := [] }

/-- HvcCBox::box_size from the source. -/
def HvcCBox.box_size (c : HvcCBox) : Nat :=
  HEADER_SIZE + 23
    + (if 0 < c.video_parameter_sets.length then
        3 + (c.video_parameter_sets.map NalUnit.size).sum else 0)
    + (if 0 < c.sequence_parameter_sets.length then
        3 + (c.sequence_parameter_sets.map NalUnit.size).sum else 0)
    + (if 0 < c.picture_parameter_sets.length then
        3 + (c.picture_parameter_sets.map NalUnit.size).sum else 0)
    + (if 0 < c.supplementary_enhancement_information.length then
        3 + (c.supplementary_enhancement_information.map NalUnit.size).sum else 0)

/-- One role block as emitted by HvcCBox::write_box when the role sequence
is non-empty: 1-byte role id, 16-bit count (the length cast with `as u16`),
then every unit of the role in order. -/
def HvcCBox.roleSection (t : Nat) (units : List NalUnit) : List Nat :=
  if 0 < units.length then
    t :: (beBytes 2 units.length ++ (units.map NalUnit.write).flatten)
  else []

/-- HvcCBox::write_box from the source.  Faithfully to the source, the
12-byte general_configuration field is NOT written: write_box goes straight
from the version byte to the 0xF000 field, although read_box and box_size
both account for those 12 bytes. -/
def HvcCBox.writeBox (c : HvcCBox) : List Nat :=
  BoxHeader.write { name := hvcCTypeTag, size := c.box_size }
    ++ [0x01]
    ++ beBytes 2 0xF000
    ++ [0xFC]
    ++ [0xFC ||| (c.chroma_idc &&& 0x03)]
    ++ [0xF8 ||| (c.bit_depth_luma_minus8 &&& 0x07)]
    ++ [0xF8 ||| (c.bit_depth_chroma_minus8 &&& 0x07)]
    ++ beBytes 2 0x0000
    ++ [((c.num_temporal_layer &&& 0x07) <<< 3)
          ||| (((if c.temporal_id_nested then 1 else 0) <<< 2) ||| 0x03)]
    ++ [(c.video_parameter_sets.length + c.sequence_parameter_sets.length
          + c.picture_parameter_sets.length
          + c.supplementary_enhancement_information.length) % 256]
    ++ HvcCBox.roleSection 32 c.video_parameter_sets
    ++ HvcCBox.roleSection 33 c.sequence_parameter_sets
    ++ HvcCBox.roleSection 34 c.picture_parameter_sets
    ++ HvcCBox.roleSection 39 c.supplementary_enhancement_information

/-- The four result vectors built by the read loop of HvcCBox::read_box. -/
structure NalAcc where
  vps : List NalUnit
  sps : List NalUnit
  pps : List NalUnit
  sei : List NalUnit
deriving DecidableEq

/-- The match on sub_nal_type inside the read loop: role ids 32, 33, 34 and
39 are routed to their vector, anything else is dropped. -/
def NalAcc.push (acc : NalAcc) (sub_nal_type : Nat) (nal_unit : NalUnit) : NalAcc :=
  if sub_nal_type = 32 then { acc with vps := acc.vps ++ [nal_unit] }
  else if sub_nal_type = 33 then { acc with sps := acc.sps ++ [nal_unit] }
  else if sub_nal_type = 34 then { acc with pps := acc.pps ++ [nal_unit] }
  else if sub_nal_type = 39 then { acc with sei := acc.sei ++ [nal_unit] }
  else acc

/-- The inner for loop over 0..sub_nal_num of HvcCBox::read_box: reads that
many units, routes each by sub_nal_type, and increments the u8 counter
i_nal, wrapping modulo 256 like the release-mode u8 addition. -/
def readNalGroup : Nat → Nat → Nat → ByteStream → NalAcc →
    Except Mp4Error (Nat × NalAcc × ByteStream)
  | 0, _, i_nal, r, acc => .ok (i_nal, acc, r)
  | n + 1, sub_nal_type, i_nal, r, acc =>
    match NalUnit.read r with
    | .error e => .error e
    | .ok (nal_unit, r1) =>
      readNalGroup n sub_nal_type ((i_nal + 1) % 256) r1 (acc.push sub_nal_type nal_unit)

/-- The outer while loop (i_nal < num_nals) of HvcCBox::read_box.  The fuel
argument only serves Lean totality: every iteration consumes at least three
stream bytes, so the fuel supplied by HvcCBox.read_box, namely the stream
length plus one, can never run out before the loop exits or the stream ends. -/
def readNalLoop : Nat → Nat → Nat → ByteStream → NalAcc →
    Except Mp4Error (NalAcc × ByteStream)
  | 0, _, _, _, _ => .error .ioError
  | fuel + 1, num_nals, i_nal, r, acc =>
    if i_nal < num_nals then
      match read_u8 r with
      | .error e => .error e
      | .ok (sub_nal_type, r1) =>
        match read_u16 r1 with
        | .error e => .error e
        | .ok (sub_nal_num, r2) =>
          match readNalGroup sub_nal_num sub_nal_type i_nal r2 acc with
          | .error e => .error e
          | .ok (i_nal2, acc2, r3) => readNalLoop fuel num_nals i_nal2 r3 acc2
    else .ok (acc, r)

/-- HvcCBox::read_box from the source. -/
def HvcCBox.read_box (r : ByteStream) (size : Nat) : ReadResult HvcCBox :=
  let start := box_start r
  match read_u8 r with
  | .error e => .error e
  | .ok (_, r1) =>
  match readBytesExact r1 12 with
  | .error e => .error e
  | .ok (general_configuration, r2) =>
  match read_u16 r2 with
  | .error e => .error e
  | .ok (_, r3) =>
  match read_u8 r3 with
  | .error e => .error e
  | .ok (_, r4) =>
  match read_u8 r4 with
  | .error e => .error e
  | .ok (b5, r5) =>
  match read_u8 r5 with
  | .error e => .error e
  | .ok (b6, r6) =>
  match read_u8 r6 with
  | .error e => .error e
  | .ok (b7, r7) =>
  match read_i16 r7 with
  | .error e => .error e
  | .ok (_, r8) =>
  match read_u8 r8 with
  | .error e => .error e
  | .ok (stc, r9) =>
  match read_u8 r9 with
  | .error e => .error e
  | .ok (num_nals, r10) =>
  match readNalLoop (r10.data.length + 1) num_nals 0 r10 ⟨[], [], [], []⟩ with
  | .error e => .error e
  | .ok (acc, r11) =>
    let r12 := skip_bytes_to r11 (start + size)
    .ok ({ general_configuration := general_configuration
           num_temporal_layer := stc >>> 3
           chroma_idc := b5 &&& 0x03
           bit_depth_luma_minus8 := b6 &&& 0x07
           bit_depth_chroma_minus8 := b7 &&& 0x07
           temporal_id_nested := (stc &&& 0x04) == 0x04
           video_parameter_sets := acc.vps
           sequence_parameter_sets := acc.sps
           picture_parameter_sets := acc.pps
           supplementary_enhancement_information := acc.sei }, r12)

/-- Hvc1Box from the source. -/
structure Hvc1Box where
  data_reference_index : Nat
  width : Nat
  height : Nat
  horizresolution : FixedPointU16
  vertresolution : FixedPointU16
  frame_count : Nat
  depth : Nat
  hvcc : HvcCBox
deriving DecidableEq

/-- impl Default for Hvc1Box from the source. -/
def Hvc1Box.default : Hvc1Box :=
  { data_reference_index := 0
    width := 0
    height := 0
    horizresolution := FixedPointU16.new 0x48
    vertresolution := FixedPointU16.new 0x48
    frame_count := 1
    depth := 0x0018
    hvcc := HvcCBox.default }

/-- Hvc1Box::get_size from the source. -/
def Hvc1Box.get_size (b : Hvc1Box) : Nat :=
  HEADER_SIZE + 8 + 70 + b.hvcc.box_size

/-- Mp4Box::box_size for Hvc1Box, which returns get_size. -/
def Hvc1Box.box_size (b : Hvc1Box) : Nat := b.get_size

/-- Hvc1Box::write_box from the source (write_i16 of -1 emits 0xFF 0xFF). -/
def Hvc1Box.writeBox (b : Hvc1Box) : List Nat :=
  BoxHeader.write { name := hvc1TypeTag, size := b.box_size }
    ++ beBytes 4 0
    ++ beBytes 2 0
    ++ beBytes 2 b.data_reference_index
    ++ beBytes 4 0
    ++ beBytes 8 0
    ++ beBytes 4 0
    ++ beBytes 2 b.width
    ++ beBytes 2 b.height
    ++ beBytes 4 b.horizresolution.raw_value
    ++ beBytes 4 b.vertresolution.raw_value
    ++ beBytes 4 0
    ++ beBytes 2 b.frame_count
    ++ List.replicate 32 0
    ++ beBytes 2 b.depth
    ++ [0xFF, 0xFF]
    ++ b.hvcc.writeBox

/-- Hvc1Box::read_box from the source. -/
def Hvc1Box.read_box (r : ByteStream) (size : Nat) : ReadResult Hvc1Box :=
  let start := box_start r
  match read_u32 r with
  | .error e => .error e
  | .ok (_, r1) =>
  match read_u16 r1 with
  | .error e => .error e
  | .ok (_, r2) =>
  match read_u16 r2 with
  | .error e => .error e
  | .ok (data_reference_index, r3) =>
  match read_u32 r3 with
  | .error e => .error e
  | .ok (_, r4) =>
  match read_u64 r4 with
  | .error e => .error e
  | .ok (_, r5) =>
  match read_u32 r5 with
  | .error e => .error e
  | .ok (_, r6) =>
  match read_u16 r6 with
  | .error e => .error e
  | .ok (width, r7) =>
  match read_u16 r7 with
  | .error e => .error e
  | .ok (height, r8) =>
  match read_u32 r8 with
  | .error e => .error e
  | .ok (hres, r9) =>
  match read_u32 r9 with
  | .error e => .error e
  | .ok (vres, r10) =>
  match read_u32 r10 with
  | .error e => .error e
  | .ok (_, r11) =>
  match read_u16 r11 with
  | .error e => .error e
  | .ok (frame_count, r12) =>
  let r13 := skip_bytes r12 32
  match read_u16 r13 with
  | .error e => .error e
  | .ok (depth, r14) =>
  match read_i16 r14 with
  | .error e => .error e
  | .ok (_, r15) =>
  match BoxHeader.read r15 with
  | .error e => .error e
  | .ok (header, r16) =>
    if header.name = hvcCTypeTag then
      match HvcCBox.read_box r16 header.size with
      | .error e => .error e
      | .ok (hvcc, r17) =>
        let r18 := skip_bytes_to r17 (start + size)
        .ok ({ data_reference_index := data_reference_index
               width := width
               height := height
               horizresolution := FixedPointU16.new_raw hres
               vertresolution := FixedPointU16.new_raw vres
               frame_count := frame_count
               depth := depth
               hvcc := hvcc }, r18)
    else .error (.invalidData "hvcc not found")

/-! Concrete values used by the evaluation theorems below. -/

/-- A 24-byte sequence-parameter-set payload (the one from the commented-out
test of the source file). -/
def spsExample : NalUnit :=
  { bytes := [0x67, 0x64, 0x00, 0x0D, 0xAC, 0xD9, 0x41, 0x41, 0xFA, 0x10, 0x00, 0x00,
              0x03, 0x00, 0x10, 0x00, 0x00, 0x03, 0x03, 0x20, 0xF1, 0x42, 0x99, 0x60] }

/-- A 6-byte picture-parameter-set payload. -/
def ppsExample : NalUnit := { bytes := [0x68, 0xEB, 0xE3, 0xCB, 0x22, 0xC0] }

/-- The worked example of the spec: width 1920, height 1080, one 24-byte
sequence-parameter entry, one 6-byte picture-parameter entry, no
video-parameter and no supplementary-info entries. -/
def workedExampleBox : Hvc1Box :=
  { data_reference_index := 1
    width := 1920
    height := 1080
    horizresolution := FixedPointU16.new 0x48
    vertresolution := FixedPointU16.new 0x48
    frame_count := 1
    depth := 0x0018
    hvcc := { general_configuration := List.replicate 12 0
              num_temporal_layer := 0
              chroma_idc := 0
              bit_depth_luma_minus8 := 0
              bit_depth_chroma_minus8 := 0
              temporal_id_nested := false
              video_parameter_sets := []
              sequence_parameter_sets := [spsExample]
              picture_parameter_sets := [ppsExample]
              supplementary_enhancement_information := [] } }

/-- A distinctive 12-byte general-configuration block. -/
def gcExample : List Nat := [1, 2, 3, 4, 5, 6, 7, 8, 9, 10, 11, 12]

/-- An HvcCBox whose general-configuration block is gcExample. -/
def gcExampleBox : HvcCBox := { HvcCBox.default with general_configuration := gcExample }

/-- A well-formed hvcC byte range (8 placeholder header bytes, version byte,
gcExample, then the remaining fixed fields, with zero parameter-set units). -/
def gcExampleStream : List Nat :=
  List.replicate 8 0 ++ [1] ++ gcExample
    ++ [0xF0, 0, 0xFC, 0xFF, 0xF8, 0xF8, 0, 0, 3, 0]

/-- Total number of NAL units across a list of (role id, units) sub-header
descriptions. -/
def totalUnits (sh : List (Nat × List NalUnit)) : Nat := (sh.map fun pr => pr.2.length).sum

/-- Byte encoding of one (role id, count) sub-header followed by its declared
count of NAL units, as it appears on the wire inside an hvcC payload. -/
def encodeSubheader (pr : Nat × List NalUnit) : List Nat :=
  pr.1 :: (beBytes 2 pr.2.length ++ (pr.2.map NalUnit.write).flatten)

/-- Byte encoding of a whole sequence of sub-headers. -/
def encodeSubheaders (sh : List (Nat × List NalUnit)) : List Nat :=
  (sh.map encodeSubheader).flatten

/-- All units carried by sub-headers of a given role id, in stream order. -/
def unitsOfRole (t : Nat) (sh : List (Nat × List NalUnit)) : List NalUnit :=
  ((sh.filter fun pr => pr.1 == t).map fun pr => pr.2).flatten

/-- Push a whole list of units of one role, in order. -/
def NalAcc.pushUnits (acc : NalAcc) (t : Nat) (units : List NalUnit) : NalAcc :=
  units.foldl (fun a u => a.push t u) acc

/-- Push every unit of every sub-header, in stream order. -/
def NalAcc.pushAll (acc : NalAcc) (sh : List (Nat × List NalUnit)) : NalAcc :=
  sh.foldl (fun a pr => a.pushUnits pr.1 pr.2) acc

/-- A well-formed hvcC byte range whose chroma and bit-depth bytes have all
eight bits set (8 placeholder header bytes in front). -/
def maskExampleStream : List Nat :=
  List.replicate 8 0 ++ [1] ++ List.replicate 12 0
    ++ [0xF0, 0] ++ [0xFC] ++ [0xFF, 0xFF, 0xFF] ++ [0, 0] ++ [0] ++ [0]

/-- The box that decoding maskExampleStream produces. -/
def maskExampleBox : HvcCBox :=
  { general_configuration := List.replicate 12 0
    num_temporal_layer := 0
    chroma_idc := 3
    bit_depth_luma_minus8 := 7
    bit_depth_chroma_minus8 := 7
    temporal_id_nested := false
    video_parameter_sets := []
    sequence_parameter_sets := []
    picture_parameter_sets := []
    supplementary_enhancement_information := [] }

/-- Two sub-headers: one with unknown role id 40, one with role id 33. -/
def loopExampleSubheaders : List (Nat × List NalUnit) :=
  [(40, [{ bytes := [5] }]), (33, [{ bytes := [7] }])]

/-- The byte encoding of loopExampleSubheaders. -/
def loopExampleStream : List Nat := encodeSubheaders loopExampleSubheaders

/-- An HvcCBox carrying 256 video-parameter units, one more than the total
count byte can represent. -/
def overflowExampleBox : HvcCBox :=
  { HvcCBox.default with video_parameter_sets := List.replicate 256 { bytes := [] } }

/-! Theorems.  Each claim of the specification is settled by one theorem
(plus, where needed, a witness or counterexample theorem). -/

/-- C1: the encode-then-decode round trip for Hvc1Box fails on the code as
it stands, even for the default sample entry (0 NAL units): write_box emits
105 bytes although box_size declares 117, because HvcCBox::write_box never
writes the 12-byte general_configuration block, and decoding the written
bytes with the declared size runs off the end of the stream and fails with
an I/O error instead of returning the original box. -/
theorem hvc1_roundtrip_fails_eval :
    (Hvc1Box.writeBox Hvc1Box.default).length = 105 ∧
    Hvc1Box.default.box_size = 117 ∧
    Hvc1Box.read_box ⟨Hvc1Box.writeBox Hvc1Box.default, 8⟩ Hvc1Box.default.box_size
      = .error .ioError := by decide

/-- C2: box_size does not equal the number of bytes write_box produces:
the default HvcCBox declares 31 bytes but writes 19, and the default
Hvc1Box declares 117 bytes but writes 105 (the 12-byte
general_configuration block is counted but never written). -/
theorem hvcc_write_length_ne_box_size_eval :
    (HvcCBox.writeBox HvcCBox.default).length = 19 ∧ HvcCBox.default.box_size = 31 ∧
    (Hvc1Box.writeBox Hvc1Box.default).length = 105 ∧ Hvc1Box.default.box_size = 117 := by decide

/-- C3: HvcCBox::write_box does not write the general_configuration block
after the version byte (the 12 bytes following position 9 of the output are
not the field, and the whole output is only 19 bytes), while read_box does
read 12 bytes into general_configuration right after the version byte, as
the evaluation on a well-formed stream shows.  Store-and-round-trip of the
block therefore fails. -/
theorem hvcc_general_configuration_not_written_eval :
    ((HvcCBox.writeBox gcExampleBox).drop 9).take 12 ≠ gcExampleBox.general_configuration ∧
    (HvcCBox.writeBox gcExampleBox).length = 19 ∧
    (gcExampleStream.drop 9).take 12 = gcExample ∧
    HvcCBox.read_box ⟨gcExampleStream, 8⟩ 31
      = .ok ({ general_configuration := gcExample
               num_temporal_layer := 0
               chroma_idc := 3
               bit_depth_luma_minus8 := 0
               bit_depth_chroma_minus8 := 0
               temporal_id_nested := false
               video_parameter_sets := []
               sequence_parameter_sets := []
               picture_parameter_sets := []
               supplementary_enhancement_information := [] }, ⟨gcExampleStream, 31⟩) := by decide

/-- C4: NalUnit::read does not fail on a short stream: with a declared
length of 3 and a single payload byte 0xAA available, it returns a unit
whose bytes are 0xAA followed by two zero-fill bytes, instead of the stream
error the claim requires. -/
theorem nalunit_short_read_zero_fills_eval :
    NalUnit.read ⟨[0, 3, 0xAA], 0⟩ = .ok ({ bytes := [0xAA, 0, 0] }, ⟨[0, 3, 0xAA], 3⟩) := by decide

/-- C8: on the worked example the code computes a decoder-config-record
size of 71 = 8 (box header) + 63, not 63, and a sample-entry size of
157 = 8 (box header) + 8 + 70 + 71, not 8 + 70 + 63; moreover encoding
produces only 145 bytes (the 12 general-configuration bytes are never
written) and decoding the encoded bytes fails with an I/O error instead of
reproducing the fields. -/
theorem hvc1_worked_example_eval :
    workedExampleBox.hvcc.box_size = 71 ∧ workedExampleBox.get_size = 157 ∧
    workedExampleBox.hvcc.box_size ≠ 23 + 3 + (2 + 24) + 3 + (2 + 6) ∧
    workedExampleBox.get_size ≠ 8 + 70 + 63 ∧
    (Hvc1Box.writeBox workedExampleBox).length = 145 ∧
    Hvc1Box.read_box ⟨Hvc1Box.writeBox workedExampleBox, 8⟩ workedExampleBox.box_size
      = .error .ioError := by decide

/-- C9 counterexample: the default resolutions are not 1.0 in 16.16 form
(raw 0x00010000); they are built from integer part 0x48 and have raw value
0x00480000. -/
theorem hvc1_default_resolution_counterexample :
    Hvc1Box.default.horizresolution ≠ FixedPointU16.new 1 ∧
    Hvc1Box.default.vertresolution ≠ FixedPointU16.new 1 ∧
    Hvc1Box.default.horizresolution.raw_value = 0x00480000 := by decide

/-- C9 amended: a default Hvc1Box has horizontal and vertical resolution
equal to 72.0 as 16.16 fixed-point values (integer part 0x48, raw
0x00480000), frame_count 1, and depth 0x0018. -/
theorem hvc1_default_values_amended :
    Hvc1Box.default.horizresolution = FixedPointU16.new 0x48 ∧
    Hvc1Box.default.horizresolution.value = 72 ∧
    Hvc1Box.default.vertresolution = FixedPointU16.new 0x48 ∧
    Hvc1Box.default.vertresolution.value = 72 ∧
    Hvc1Box.default.frame_count = 1 ∧
    Hvc1Box.default.depth = 0x0018 := by decide

/-! Supporting lemmas about the byte-level primitives. -/

lemma beBytes_length (n v : Nat) : (beBytes n v).length = n := by
  induction n generalizing v with
  | zero => rfl
  | succ n ih => simp [beBytes, ih]

lemma beVal_append_byte (l : List Nat) (b : Nat) : beVal (l ++ [b]) = beVal l * 256 + b := by
  simp [beVal, List.foldl_append]

lemma beVal_beBytes (n v : Nat) : beVal (beBytes n v) = v % 256 ^ n := by
  induction n generalizing v with
  | zero => simp [beBytes, beVal, Nat.mod_one]
  | succ n ih =>
    rw [beBytes, beVal_append_byte, ih]
    rw [show (256 : Nat) ^ (n + 1) = 256 * 256 ^ n from by ring, Nat.mod_mul]
    ring

lemma drop_chunk {α : Type} (d : List α) (p : Nat) (chunk rest : List α)
    (h : d.drop p = chunk ++ rest) : d.drop (p + chunk.length) = rest := by
  rw [← List.drop_drop, h, List.drop_left]

lemma drop_length_ge {α : Type} (d : List α) (p : Nat) (chunk rest : List α)
    (h : d.drop p = chunk ++ rest) (hc : 0 < chunk.length) : p + chunk.length ≤ d.length := by
  have hl := congrArg List.length h
  simp only [List.length_drop, List.length_append] at hl
  omega

lemma readBytesExact_ok (d : List Nat) (p n : Nat) (h : p + n ≤ d.length) :
    readBytesExact ⟨d, p⟩ n = .ok ((d.drop p).take n, ⟨d, p + n⟩) := by
  simp [readBytesExact, h]

lemma readBE_ok (n : Nat) (d : List Nat) (p : Nat) (h : p + n ≤ d.length) :
    readBE n ⟨d, p⟩ = .ok (beVal ((d.drop p).take n), ⟨d, p + n⟩) := by
  rw [readBE, readBytesExact_ok d p n h]

lemma readBE_chunk (n : Nat) (d : List Nat) (p : Nat) (chunk rest : List Nat)
    (hn : chunk.length = n) (h0 : 0 < n) (h : d.drop p = chunk ++ rest) :
    readBE n ⟨d, p⟩ = .ok (beVal chunk, ⟨d, p + n⟩) := by
  have hle : p + n ≤ d.length := by
    have := drop_length_ge d p chunk rest h (by omega)
    omega
  rw [readBE_ok n d p hle, h, List.take_left' hn]

lemma readBytesExact_ok_elim {d : List Nat} {p n : Nat} {x : List Nat × ByteStream}
    (h : readBytesExact ⟨d, p⟩ n = .ok x) :
    p + n ≤ d.length ∧ x = ((d.drop p).take n, ⟨d, p + n⟩) := by
  unfold readBytesExact at h
  split at h
  · refine ⟨by assumption, ?_⟩
    injection h with h'
    exact h'.symm
  · cases h

lemma readBE_ok_elim {n : Nat} {d : List Nat} {p : Nat} {x : Nat × ByteStream}
    (h : readBE n ⟨d, p⟩ = .ok x) :
    p + n ≤ d.length ∧ x = (beVal ((d.drop p).take n), ⟨d, p + n⟩) := by
  unfold readBE at h
  cases hb : readBytesExact ⟨d, p⟩ n with
  | error e => rw [hb] at h; cases h
  | ok y =>
    rw [hb] at h
    obtain ⟨h1, h2⟩ := readBytesExact_ok_elim hb
    subst h2
    injection h with h'
    exact ⟨h1, h'.symm⟩

lemma beVal_take_one (d : List Nat) (q : Nat) (hq : q < d.length) :
    beVal ((d.drop q).take 1) = d.getD q 0 := by
  rw [List.drop_eq_getElem_cons hq]
  rw [List.getD_eq_getElem d 0 hq]
  simp only [List.take_succ_cons, List.take_zero, beVal, List.foldl_cons, List.foldl_nil]
  omega

lemma NalUnit.read_chunk (d : List Nat) (p : Nat) (u : NalUnit) (rest : List Nat)
    (hu : u.bytes.length < 65536)
    (h : d.drop p = NalUnit.write u ++ rest) :
    NalUnit.read ⟨d, p⟩ = .ok (u, ⟨d, p + 2 + u.bytes.length⟩) := by
  rw [NalUnit.write, List.append_assoc] at h
  have hr : readBE 2 ⟨d, p⟩ = .ok (u.bytes.length, ⟨d, p + 2⟩) := by
    have hb := readBE_chunk 2 d p (beBytes 2 u.bytes.length) (u.bytes ++ rest)
      (beBytes_length 2 _) (by norm_num) h
    rwa [beVal_beBytes, Nat.mod_eq_of_lt (by simpa using hu)] at hb
  have hdrop : d.drop (p + 2) = u.bytes ++ rest := by
    have hd := drop_chunk d p (beBytes 2 u.bytes.length) (u.bytes ++ rest) h
    rwa [beBytes_length] at hd
  have hlen2 : d.length - (p + 2) = u.bytes.length + rest.length := by
    have hl := congrArg List.length hdrop
    simp only [List.length_drop, List.length_append] at hl
    exact hl
  have hmin : min u.bytes.length (d.length - (p + 2)) = u.bytes.length := by omega
  rw [NalUnit.read, read_u16, hr]
  dsimp only
  rw [hmin, hdrop, List.take_left, Nat.sub_self, List.replicate_zero, List.append_nil]

/-! Behavior of the NAL-unit sub-header loop of HvcCBox::read_box. -/

lemma readNalGroup_encode (units : List NalUnit) (t : Nat) (i_nal : Nat) (d : List Nat)
    (p : Nat) (rest : List Nat) (acc : NalAcc)
    (hi : i_nal < 256)
    (hwf : ∀ u ∈ units, u.bytes.length < 65536)
    (h : d.drop p = (units.map NalUnit.write).flatten ++ rest) :
    readNalGroup units.length t i_nal ⟨d, p⟩ acc =
      .ok ((i_nal + units.length) % 256, acc.pushUnits t units,
           ⟨d, p + ((units.map NalUnit.write).flatten).length⟩) := by
  induction units generalizing i_nal p acc with
  | nil =>
    simp [readNalGroup, NalAcc.pushUnits, Nat.mod_eq_of_lt hi]
  | cons u us ih =>
    have hu : u.bytes.length < 65536 := hwf u (by simp)
    have h' : d.drop p = NalUnit.write u ++ ((us.map NalUnit.write).flatten ++ rest) := by
      simpa [List.append_assoc] using h
    have hdrop : d.drop (p + 2 + u.bytes.length) = (us.map NalUnit.write).flatten ++ rest := by
      have hd := drop_chunk d p (NalUnit.write u) ((us.map NalUnit.write).flatten ++ rest) h'
      have hwl : (NalUnit.write u).length = 2 + u.bytes.length := by
        simp [NalUnit.write, beBytes_length]
      rw [hwl] at hd
      rw [show p + 2 + u.bytes.length = p + (2 + u.bytes.length) from by omega]
      exact hd
    rw [show (u :: us).length = us.length + 1 from rfl, readNalGroup,
      NalUnit.read_chunk d p u _ hu h']
    dsimp only
    rw [ih ((i_nal + 1) % 256) (p + 2 + u.bytes.length) (acc.push t u)
      (Nat.mod_lt _ (by norm_num)) (fun u hu2 => hwf u (by simp [hu2])) hdrop]
    rw [Nat.mod_add_mod]
    rw [show i_nal + 1 + us.length = i_nal + (us.length + 1) from by omega]
    rw [show p + 2 + u.bytes.length + ((us.map NalUnit.write).flatten).length
        = p + (((u :: us).map NalUnit.write).flatten).length from by
      simp [NalUnit.write, beBytes_length, List.length_append]
      omega]
    rfl

lemma readNalLoop_encode (sh : List (Nat × List NalUnit)) (d : List Nat) (p : Nat)
    (rest : List Nat) (num_nals fuel i_nal : Nat) (acc : NalAcc)
    (hfuel : sh.length < fuel)
    (htotal : i_nal + totalUnits sh = num_nals)
    (hnum : num_nals ≤ 255)
    (hwf : ∀ pr ∈ sh, pr.1 < 256 ∧ pr.2 ≠ [] ∧ ∀ u ∈ pr.2, u.bytes.length < 65536)
    (h : d.drop p = encodeSubheaders sh ++ rest) :
    readNalLoop fuel num_nals i_nal ⟨d, p⟩ acc =
      .ok (acc.pushAll sh, ⟨d, p + (encodeSubheaders sh).length⟩) := by
  induction sh generalizing fuel i_nal p acc with
  | nil =>
    cases fuel with
    | zero => omega
    | succ fuel =>
      have hi : ¬ i_nal < num_nals := by
        simp [totalUnits] at htotal
        omega
      rw [readNalLoop, if_neg hi]
      simp [NalAcc.pushAll, encodeSubheaders]
  | cons pr sh' ih =>
    obtain ⟨t, units⟩ := pr
    obtain ⟨ht, hne, hu⟩ := hwf (t, units) (by simp)
    cases fuel with
    | zero => simp at hfuel
    | succ fuel =>
      have htot : totalUnits ((t, units) :: sh') = units.length + totalUnits sh' := by
        simp [totalUnits]
      have hpos : 0 < units.length := List.length_pos.mpr hne
      have hlt : i_nal < num_nals := by omega
      have h1 : d.drop p = [t] ++ (beBytes 2 units.length
          ++ ((units.map NalUnit.write).flatten ++ (encodeSubheaders sh' ++ rest))) := by
        simpa [encodeSubheaders, encodeSubheader, List.append_assoc] using h
      have hr8 : read_u8 ⟨d, p⟩ = .ok (t, ⟨d, p + 1⟩) := by
        have hb := readBE_chunk 1 d p [t] _ rfl (by norm_num) h1
        simpa [read_u8, beVal] using hb
      have h2 : d.drop (p + 1) = beBytes 2 units.length
          ++ ((units.map NalUnit.write).flatten ++ (encodeSubheaders sh' ++ rest)) := by
        have hd := drop_chunk d p [t] _ h1
        simpa using hd
      have hr16 : read_u16 ⟨d, p + 1⟩ = .ok (units.length, ⟨d, p + 1 + 2⟩) := by
        rw [read_u16]
        have hb := readBE_chunk 2 d (p + 1) (beBytes 2 units.length) _
          (beBytes_length 2 _) (by norm_num) h2
        rwa [beVal_beBytes, Nat.mod_eq_of_lt (by omega)] at hb
      have h3 : d.drop (p + 1 + 2) = (units.map NalUnit.write).flatten
          ++ (encodeSubheaders sh' ++ rest) := by
        have hd := drop_chunk d (p + 1) (beBytes 2 units.length) _ h2
        rwa [beBytes_length] at hd
      have hlen_cons : ((t, units) :: sh').length = sh'.length + 1 := rfl
      have hgroup := readNalGroup_encode units t i_nal d (p + 1 + 2)
        (encodeSubheaders sh' ++ rest) acc (by omega) hu h3
      rw [readNalLoop, if_pos hlt, hr8]
      dsimp only
      rw [hr16]
      dsimp only
      rw [hgroup]
      dsimp only
      rw [Nat.mod_eq_of_lt (show i_nal + units.length < 256 by omega)]
      have h4 : d.drop (p + 1 + 2 + ((units.map NalUnit.write).flatten).length)
          = encodeSubheaders sh' ++ rest :=
        drop_chunk d (p + 1 + 2) ((units.map NalUnit.write).flatten) _ h3
      rw [ih (p + 1 + 2 + ((units.map NalUnit.write).flatten).length) fuel
        (i_nal + units.length) (acc.pushUnits t units) (by omega) (by omega)
        (fun q hq => hwf q (by simp [hq])) h4]
      rw [show p + 1 + 2 + ((units.map NalUnit.write).flatten).length
            + (encodeSubheaders sh').length
          = p + (encodeSubheaders ((t, units) :: sh')).length from by
        simp [encodeSubheaders, encodeSubheader, beBytes_length, List.length_append]
        omega]
      rfl

/-! Routing of units by role id. -/

lemma NalAcc.push_vps (acc : NalAcc) (t : Nat) (u : NalUnit) :
    (acc.push t u).vps = if t = 32 then acc.vps ++ [u] else acc.vps := by
  unfold NalAcc.push
  split_ifs <;> simp_all

lemma NalAcc.push_sps (acc : NalAcc) (t : Nat) (u : NalUnit) :
    (acc.push t u).sps = if t = 33 then acc.sps ++ [u] else acc.sps := by
  unfold NalAcc.push
  split_ifs <;> simp_all

lemma NalAcc.push_pps (acc : NalAcc) (t : Nat) (u : NalUnit) :
    (acc.push t u).pps = if t = 34 then acc.pps ++ [u] else acc.pps := by
  unfold NalAcc.push
  split_ifs <;> simp_all

lemma NalAcc.push_sei (acc : NalAcc) (t : Nat) (u : NalUnit) :
    (acc.push t u).sei = if t = 39 then acc.sei ++ [u] else acc.sei := by
  unfold NalAcc.push
  split_ifs <;> simp_all

lemma NalAcc.pushUnits_vps (acc : NalAcc) (t : Nat) (units : List NalUnit) :
    (acc.pushUnits t units).vps = acc.vps ++ (if t = 32 then units else []) := by
  induction units generalizing acc with
  | nil => simp [NalAcc.pushUnits]
  | cons u us ih =>
    have h1 : acc.pushUnits t (u :: us) = (acc.push t u).pushUnits t us := rfl
    rw [h1, ih, NalAcc.push_vps]
    by_cases h : t = 32 <;> simp [h]

lemma NalAcc.pushUnits_sps (acc : NalAcc) (t : Nat) (units : List NalUnit) :
    (acc.pushUnits t units).sps = acc.sps ++ (if t = 33 then units else []) := by
  induction units generalizing acc with
  | nil => simp [NalAcc.pushUnits]
  | cons u us ih =>
    have h1 : acc.pushUnits t (u :: us) = (acc.push t u).pushUnits t us := rfl
    rw [h1, ih, NalAcc.push_sps]
    by_cases h : t = 33 <;> simp [h]

lemma NalAcc.pushUnits_pps (acc : NalAcc) (t : Nat) (units : List NalUnit) :
    (acc.pushUnits t units).pps = acc.pps ++ (if t = 34 then units else []) := by
  induction units generalizing acc with
  | nil => simp [NalAcc.pushUnits]
  | cons u us ih =>
    have h1 : acc.pushUnits t (u :: us) = (acc.push t u).pushUnits t us := rfl
    rw [h1, ih, NalAcc.push_pps]
    by_cases h : t = 34 <;> simp [h]

lemma NalAcc.pushUnits_sei (acc : NalAcc) (t : Nat) (units : List NalUnit) :
    (acc.pushUnits t units).sei = acc.sei ++ (if t = 39 then units else []) := by
  induction units generalizing acc with
  | nil => simp [NalAcc.pushUnits]
  | cons u us ih =>
    have h1 : acc.pushUnits t (u :: us) = (acc.push t u).pushUnits t us := rfl
    rw [h1, ih, NalAcc.push_sei]
    by_cases h : t = 39 <;> simp [h]

lemma unitsOfRole_cons (t0 : Nat) (t : Nat) (units : List NalUnit)
    (sh : List (Nat × List NalUnit)) :
    unitsOfRole t0 ((t, units) :: sh)
      = (if t = t0 then units else []) ++ unitsOfRole t0 sh := by
  by_cases h : t = t0 <;> simp [unitsOfRole, List.filter_cons, h]

lemma NalAcc.pushAll_vps (acc : NalAcc) (sh : List (Nat × List NalUnit)) :
    (acc.pushAll sh).vps = acc.vps ++ unitsOfRole 32 sh := by
  induction sh generalizing acc with
  | nil => simp [NalAcc.pushAll, unitsOfRole]
  | cons pr sh' ih =>
    obtain ⟨t, units⟩ := pr
    have h1 : acc.pushAll ((t, units) :: sh') = (acc.pushUnits t units).pushAll sh' := rfl
    rw [h1, ih, NalAcc.pushUnits_vps, unitsOfRole_cons, List.append_assoc]

lemma NalAcc.pushAll_sps (acc : NalAcc) (sh : List (Nat × List NalUnit)) :
    (acc.pushAll sh).sps = acc.sps ++ unitsOfRole 33 sh := by
  induction sh generalizing acc with
  | nil => simp [NalAcc.pushAll, unitsOfRole]
  | cons pr sh' ih =>
    obtain ⟨t, units⟩ := pr
    have h1 : acc.pushAll ((t, units) :: sh') = (acc.pushUnits t units).pushAll sh' := rfl
    rw [h1, ih, NalAcc.pushUnits_sps, unitsOfRole_cons, List.append_assoc]

lemma NalAcc.pushAll_pps (acc : NalAcc) (sh : List (Nat × List NalUnit)) :
    (acc.pushAll sh).pps = acc.pps ++ unitsOfRole 34 sh := by
  induction sh generalizing acc with
  | nil => simp [NalAcc.pushAll, unitsOfRole]
  | cons pr sh' ih =>
    obtain ⟨t, units⟩ := pr
    have h1 : acc.pushAll ((t, units) :: sh') = (acc.pushUnits t units).pushAll sh' := rfl
    rw [h1, ih, NalAcc.pushUnits_pps, unitsOfRole_cons, List.append_assoc]

lemma NalAcc.pushAll_sei (acc : NalAcc) (sh : List (Nat × List NalUnit)) :
    (acc.pushAll sh).sei = acc.sei ++ unitsOfRole 39 sh := by
  induction sh generalizing acc with
  | nil => simp [NalAcc.pushAll, unitsOfRole]
  | cons pr sh' ih =>
    obtain ⟨t, units⟩ := pr
    have h1 : acc.pushAll ((t, units) :: sh') = (acc.pushUnits t units).pushAll sh' := rfl
    rw [h1, ih, NalAcc.pushUnits_sei, unitsOfRole_cons, List.append_assoc]

lemma beBytes_two_mod (v : Nat) : beBytes 2 v = beBytes 2 (v % 65536) := by
  have h1 : v / 256 % 256 = v % 65536 / 256 % 256 := by omega
  have h2 : v % 256 = v % 65536 % 256 := by omega
  simp only [beBytes]
  rw [h1, h2]

lemma roleSection_take (t : Nat) (units : List NalUnit) (X : List Nat)
    (h : 0 < units.length) :
    (HvcCBox.roleSection t units ++ X).take 3 = t :: beBytes 2 (units.length % 65536) := by
  rw [HvcCBox.roleSection, if_pos h, ← beBytes_two_mod]
  rw [List.cons_append, show (3 : Nat) = 2 + 1 from rfl, List.take_succ_cons,
    List.append_assoc, List.take_left' (beBytes_length 2 _)]

/-- Inversion of a successful HvcCBox::read_box run: the fixed fields come
from the fixed byte positions, with the packed fields masked. -/
lemma HvcCBox.read_box_ok_elim {d : List Nat} {p size : Nat} {c : HvcCBox} {r' : ByteStream}
    (h : HvcCBox.read_box ⟨d, p⟩ size = .ok (c, r')) :
    p + 21 ≤ d.length ∧
    c.general_configuration = (d.drop (p + 1)).take 12 ∧
    c.chroma_idc = beVal ((d.drop (p + 16)).take 1) &&& 0x03 ∧
    c.bit_depth_luma_minus8 = beVal ((d.drop (p + 17)).take 1) &&& 0x07 ∧
    c.bit_depth_chroma_minus8 = beVal ((d.drop (p + 18)).take 1) &&& 0x07 := by
  rw [HvcCBox.read_box] at h
  split at h
  next e heq => exact Except.noConfusion h
  next v1 r1 heq =>
  rw [read_u8] at heq
  obtain ⟨hle1, hx1⟩ := readBE_ok_elim heq
  injection hx1 with hv1 hr1
  subst hr1
  split at h
  next e heq2 => exact Except.noConfusion h
  next gc r2 heq2 =>
  obtain ⟨hle2, hx2⟩ := readBytesExact_ok_elim heq2
  injection hx2 with hgc hr2
  subst hr2
  subst hgc
  split at h
  next e heq3 => exact Except.noConfusion h
  next v3 r3 heq3 =>
  rw [read_u16] at heq3
  obtain ⟨hle3, hx3⟩ := readBE_ok_elim heq3
  injection hx3 with hv3 hr3
  subst hr3
  split at h
  next e heq4 => exact Except.noConfusion h
  next v4 r4 heq4 =>
  rw [read_u8] at heq4
  obtain ⟨hle4, hx4⟩ := readBE_ok_elim heq4
  injection hx4 with hv4 hr4
  subst hr4
  split at h
  next e heq5 => exact Except.noConfusion h
  next b5 r5 heq5 =>
  rw [read_u8] at heq5
  obtain ⟨hle5, hx5⟩ := readBE_ok_elim heq5
  injection hx5 with hb5 hr5
  subst hr5
  subst hb5
  split at h
  next e heq6 => exact Except.noConfusion h
  next b6 r6 heq6 =>
  rw [read_u8] at heq6
  obtain ⟨hle6, hx6⟩ := readBE_ok_elim heq6
  injection hx6 with hb6 hr6
  subst hr6
  subst hb6
  split at h
  next e heq7 => exact Except.noConfusion h
  next b7 r7 heq7 =>
  rw [read_u8] at heq7
  obtain ⟨hle7, hx7⟩ := readBE_ok_elim heq7
  injection hx7 with hb7 hr7
  subst hr7
  subst hb7
  split at h
  next e heq8 => exact Except.noConfusion h
  next v8 r8 heq8 =>
  rw [read_i16] at heq8
  obtain ⟨hle8, hx8⟩ := readBE_ok_elim heq8
  injection hx8 with hv8 hr8
  subst hr8
  split at h
  next e heq9 => exact Except.noConfusion h
  next stc r9 heq9 =>
  rw [read_u8] at heq9
  obtain ⟨hle9, hx9⟩ := readBE_ok_elim heq9
  injection hx9 with hstc hr9
  subst hr9
  split at h
  next e heq10 => exact Except.noConfusion h
  next nn r10 heq10 =>
  rw [read_u8] at heq10
  obtain ⟨hle10, hx10⟩ := readBE_ok_elim heq10
  injection hx10 with hnn hr10
  subst hr10
  split at h
  next e heq11 => exact Except.noConfusion h
  next acc r11 heq11 =>
  injection h with hh
  injection hh with hbox hr'
  subst hbox
  refine ⟨by omega, ?_, ?_, ?_, ?_⟩
  · rfl
  · rw [show p + 1 + 12 + 2 + 1 = p + 16 from by omega]
  · rw [show p + 1 + 12 + 2 + 1 + 1 = p + 17 from by omega]
  · rw [show p + 1 + 12 + 2 + 1 + 1 + 1 = p + 18 from by omega]

/-- C5: when the byte stream provides all 78 fixed sample-entry bytes and an
8-byte nested box header whose type tag (the 4 bytes at offset 82) is not
the hvcC tag, Hvc1Box::read_box fails with the malformed-data error "hvcc
not found" (so it neither panics nor returns any, even partial, box). -/
theorem hvc1_read_rejects_wrong_nested_tag (d : List Nat) (p size : Nat)
    (h1 : p + 86 ≤ d.length)
    (h2 : beVal ((d.drop (p + 82)).take 4) ≠ hvcCTypeTag) :
    Hvc1Box.read_box ⟨d, p⟩ size = .error (.invalidData "hvcc not found") := by
  rw [Hvc1Box.read_box, read_u32, readBE_ok 4 d p (by omega)]
  dsimp only
  rw [read_u16, readBE_ok 2 d (p + 4) (by omega)]
  dsimp only
  rw [read_u16, readBE_ok 2 d (p + 4 + 2) (by omega)]
  dsimp only
  rw [read_u32, readBE_ok 4 d (p + 4 + 2 + 2) (by omega)]
  dsimp only
  rw [read_u64, readBE_ok 8 d (p + 4 + 2 + 2 + 4) (by omega)]
  dsimp only
  rw [read_u32, readBE_ok 4 d (p + 4 + 2 + 2 + 4 + 8) (by omega)]
  dsimp only
  rw [read_u16, readBE_ok 2 d (p + 4 + 2 + 2 + 4 + 8 + 4) (by omega)]
  dsimp only
  rw [read_u16, readBE_ok 2 d (p + 4 + 2 + 2 + 4 + 8 + 4 + 2) (by omega)]
  dsimp only
  rw [read_u32, readBE_ok 4 d (p + 4 + 2 + 2 + 4 + 8 + 4 + 2 + 2) (by omega)]
  dsimp only
  rw [read_u32, readBE_ok 4 d (p + 4 + 2 + 2 + 4 + 8 + 4 + 2 + 2 + 4) (by omega)]
  dsimp only
  rw [read_u32, readBE_ok 4 d (p + 4 + 2 + 2 + 4 + 8 + 4 + 2 + 2 + 4 + 4) (by omega)]
  dsimp only
  rw [read_u16, readBE_ok 2 d (p + 4 + 2 + 2 + 4 + 8 + 4 + 2 + 2 + 4 + 4 + 4) (by omega)]
  dsimp only [skip_bytes]
  rw [read_u16, readBE_ok 2 d (p + 4 + 2 + 2 + 4 + 8 + 4 + 2 + 2 + 4 + 4 + 4 + 2 + 32) (by omega)]
  dsimp only
  rw [read_i16,
    readBE_ok 2 d (p + 4 + 2 + 2 + 4 + 8 + 4 + 2 + 2 + 4 + 4 + 4 + 2 + 32 + 2) (by omega)]
  dsimp only
  rw [BoxHeader.read, read_u32,
    readBE_ok 4 d (p + 4 + 2 + 2 + 4 + 8 + 4 + 2 + 2 + 4 + 4 + 4 + 2 + 32 + 2 + 2) (by omega)]
  dsimp only
  rw [read_u32,
    readBE_ok 4 d (p + 4 + 2 + 2 + 4 + 8 + 4 + 2 + 2 + 4 + 4 + 4 + 2 + 32 + 2 + 2 + 4) (by omega)]
  dsimp only
  rw [show p + 4 + 2 + 2 + 4 + 8 + 4 + 2 + 2 + 4 + 4 + 4 + 2 + 32 + 2 + 2 + 4 = p + 82 from by
    omega]
  rw [if_neg h2]

/-- C5 witness: an 86-byte all-zero stream reaches the nested header, whose
tag 0 is not the hvcC tag, and decode fails with the malformed-data error. -/
theorem hvc1_read_rejects_wrong_nested_tag_witness :
    Hvc1Box.read_box ⟨List.replicate 86 0, 0⟩ 117 = .error (.invalidData "hvcc not found") :=
  hvc1_read_rejects_wrong_nested_tag (List.replicate 86 0) 0 117 (by decide) (by decide)

/-- C6: on a stream carrying any sequence of (role id, count) sub-headers
whose unit total equals num_nals (at most 255), the read loop of
HvcCBox::read_box returns exactly the units of roles 32, 33, 34 and 39, in
stream order, in the matching result vector; units of any other role id are
consumed (the final cursor sits past all the encoded sub-headers) but appear
in none of the four vectors; and the loop stops there no matter how many
sub-headers the total was spread over. -/
theorem hvcc_nal_subheader_loop_spec (sh : List (Nat × List NalUnit)) (d : List Nat)
    (p : Nat) (rest : List Nat) (num_nals fuel : Nat)
    (hfuel : sh.length < fuel)
    (htotal : totalUnits sh = num_nals)
    (hnum : num_nals ≤ 255)
    (hwf : ∀ pr ∈ sh, pr.1 < 256 ∧ pr.2 ≠ [] ∧ ∀ u ∈ pr.2, u.bytes.length < 65536)
    (h : d.drop p = encodeSubheaders sh ++ rest) :
    readNalLoop fuel num_nals 0 ⟨d, p⟩ ⟨[], [], [], []⟩ =
      .ok (⟨unitsOfRole 32 sh, unitsOfRole 33 sh, unitsOfRole 34 sh, unitsOfRole 39 sh⟩,
           ⟨d, p + (encodeSubheaders sh).length⟩) := by
  rw [readNalLoop_encode sh d p rest num_nals fuel 0 ⟨[], [], [], []⟩ hfuel
    (by omega) hnum hwf h]
  have hacc : (⟨[], [], [], []⟩ : NalAcc).pushAll sh
      = ⟨unitsOfRole 32 sh, unitsOfRole 33 sh, unitsOfRole 34 sh, unitsOfRole 39 sh⟩ := by
    have hv := NalAcc.pushAll_vps ⟨[], [], [], []⟩ sh
    have hs := NalAcc.pushAll_sps ⟨[], [], [], []⟩ sh
    have hp := NalAcc.pushAll_pps ⟨[], [], [], []⟩ sh
    have he := NalAcc.pushAll_sei ⟨[], [], [], []⟩ sh
    simp only [List.nil_append] at hv hs hp he
    cases hx : (⟨[], [], [], []⟩ : NalAcc).pushAll sh
    rw [hx] at hv hs hp he
    simp_all
  rw [hacc]

/-- C6 witness: two sub-headers, one of unknown role 40 and one of role 33,
each declaring one unit, total 2: the loop consumes all 12 encoded bytes,
stores only the role-33 unit, and the role-40 unit appears nowhere. -/
theorem hvcc_nal_subheader_loop_spec_witness :
    readNalLoop 3 2 0 ⟨loopExampleStream, 0⟩ ⟨[], [], [], []⟩ =
      .ok (⟨[], [{ bytes := [7] }], [], []⟩, ⟨loopExampleStream, 12⟩) := by
  have h := hvcc_nal_subheader_loop_spec loopExampleSubheaders loopExampleStream 0 [] 2 3
    (by decide) (by decide) (by decide) (by decide) (by decide)
  exact h

/-- C7: whenever HvcCBox::read_box succeeds, the decoded chroma_idc is the
low 2 bits of the byte at offset 16 of the record (so an all-ones byte gives
3), and the two bit-depth fields are the low 3 bits of their bytes, hence at
most 7; set high bits are discarded, never rejected. -/
theorem hvcc_read_masks_packed_fields (d : List Nat) (p size : Nat) (c : HvcCBox)
    (r' : ByteStream)
    (h : HvcCBox.read_box ⟨d, p⟩ size = .ok (c, r')) :
    c.chroma_idc = d.getD (p + 16) 0 &&& 0x03 ∧
    (d.getD (p + 16) 0 = 0xFF → c.chroma_idc = 3) ∧
    c.chroma_idc ≤ 3 ∧
    c.bit_depth_luma_minus8 = d.getD (p + 17) 0 &&& 0x07 ∧
    c.bit_depth_luma_minus8 ≤ 7 ∧
    c.bit_depth_chroma_minus8 = d.getD (p + 18) 0 &&& 0x07 ∧
    c.bit_depth_chroma_minus8 ≤ 7 := by
  obtain ⟨hlen, hgc, hc, hl, hcd⟩ := HvcCBox.read_box_ok_elim h
  rw [beVal_take_one d (p + 16) (by omega)] at hc
  rw [beVal_take_one d (p + 17) (by omega)] at hl
  rw [beVal_take_one d (p + 18) (by omega)] at hcd
  refine ⟨hc, ?_, ?_, hl, ?_, hcd, ?_⟩
  · intro hff
    rw [hc, hff]
    decide
  · rw [hc]
    exact Nat.and_le_right
  · rw [hl]
    exact Nat.and_le_right
  · rw [hcd]
    exact Nat.and_le_right

/-- C7 witness: decoding maskExampleStream, whose chroma byte and both
bit-depth bytes are 0xFF, succeeds and yields chroma_idc 3 and bit depths
7. -/
theorem hvcc_read_masks_packed_fields_witness :
    maskExampleBox.chroma_idc = maskExampleStream.getD 24 0 &&& 0x03 ∧
    (maskExampleStream.getD 24 0 = 0xFF → maskExampleBox.chroma_idc = 3) ∧
    maskExampleBox.chroma_idc ≤ 3 ∧
    maskExampleBox.bit_depth_luma_minus8 = maskExampleStream.getD 25 0 &&& 0x07 ∧
    maskExampleBox.bit_depth_luma_minus8 ≤ 7 ∧
    maskExampleBox.bit_depth_chroma_minus8 = maskExampleStream.getD 26 0 &&& 0x07 ∧
    maskExampleBox.bit_depth_chroma_minus8 ≤ 7 :=
  hvcc_read_masks_packed_fields maskExampleStream 8 31 maskExampleBox
    ⟨maskExampleStream, 31⟩ (by decide)

/-- C10: when the four role sequences hold more than 255 units in total,
HvcCBox::write_box still writes (it is total): the total-count byte at
offset 18 of the output is the unit total reduced modulo 256 (hence not the
real total), and each non-empty role sub-header carries its role id followed
by the role length reduced modulo 65536 as a 16-bit big-endian count. -/
theorem hvcc_write_truncated_counts (c : HvcCBox)
    (hm : 255 < c.video_parameter_sets.length + c.sequence_parameter_sets.length
      + c.picture_parameter_sets.length + c.supplementary_enhancement_information.length) :
    ((HvcCBox.writeBox c).drop 18).take 1
      = [(c.video_parameter_sets.length + c.sequence_parameter_sets.length
          + c.picture_parameter_sets.length
          + c.supplementary_enhancement_information.length) % 256] ∧
    (c.video_parameter_sets.length + c.sequence_parameter_sets.length
        + c.picture_parameter_sets.length
        + c.supplementary_enhancement_information.length) % 256
      ≠ c.video_parameter_sets.length + c.sequence_parameter_sets.length
        + c.picture_parameter_sets.length
        + c.supplementary_enhancement_information.length ∧
    (0 < c.video_parameter_sets.length →
      ((HvcCBox.writeBox c).drop 19).take 3
        = 32 :: beBytes 2 (c.video_parameter_sets.length % 65536)) ∧
    (0 < c.sequence_parameter_sets.length →
      ((HvcCBox.writeBox c).drop
          (19 + (HvcCBox.roleSection 32 c.video_parameter_sets).length)).take 3
        = 33 :: beBytes 2 (c.sequence_parameter_sets.length % 65536)) ∧
    (0 < c.picture_parameter_sets.length →
      ((HvcCBox.writeBox c).drop
          (19 + (HvcCBox.roleSection 32 c.video_parameter_sets).length
             + (HvcCBox.roleSection 33 c.sequence_parameter_sets).length)).take 3
        = 34 :: beBytes 2 (c.picture_parameter_sets.length % 65536)) ∧
    (0 < c.supplementary_enhancement_information.length →
      ((HvcCBox.writeBox c).drop
          (19 + (HvcCBox.roleSection 32 c.video_parameter_sets).length
             + (HvcCBox.roleSection 33 c.sequence_parameter_sets).length
             + (HvcCBox.roleSection 34 c.picture_parameter_sets).length)).take 3
        = 39 :: beBytes 2 (c.supplementary_enhancement_information.length % 65536)) := by
  have h18 : HvcCBox.writeBox c
      = (beBytes 4 c.box_size ++ beBytes 4 hvcCTypeTag ++ [0x01] ++ beBytes 2 0xF000
          ++ [0xFC] ++ [0xFC ||| (c.chroma_idc &&& 0x03)]
          ++ [0xF8 ||| (c.bit_depth_luma_minus8 &&& 0x07)]
          ++ [0xF8 ||| (c.bit_depth_chroma_minus8 &&& 0x07)]
          ++ beBytes 2 0x0000
          ++ [((c.num_temporal_layer &&& 0x07) <<< 3)
                ||| (((if c.temporal_id_nested then 1 else 0) <<< 2) ||| 0x03)])
        ++ ([(c.video_parameter_sets.length + c.sequence_parameter_sets.length
              + c.picture_parameter_sets.length
              + c.supplementary_enhancement_information.length) % 256]
            ++ (HvcCBox.roleSection 32 c.video_parameter_sets
              ++ (HvcCBox.roleSection 33 c.sequence_parameter_sets
                ++ (HvcCBox.roleSection 34 c.picture_parameter_sets
                  ++ HvcCBox.roleSection 39 c.supplementary_enhancement_information)))) := by
    simp [HvcCBox.writeBox, BoxHeader.write, List.append_assoc]
  have h19 : HvcCBox.writeBox c
      = (beBytes 4 c.box_size ++ beBytes 4 hvcCTypeTag ++ [0x01] ++ beBytes 2 0xF000
          ++ [0xFC] ++ [0xFC ||| (c.chroma_idc &&& 0x03)]
          ++ [0xF8 ||| (c.bit_depth_luma_minus8 &&& 0x07)]
          ++ [0xF8 ||| (c.bit_depth_chroma_minus8 &&& 0x07)]
          ++ beBytes 2 0x0000
          ++ [((c.num_temporal_layer &&& 0x07) <<< 3)
                ||| (((if c.temporal_id_nested then 1 else 0) <<< 2) ||| 0x03)]
          ++ [(c.video_parameter_sets.length + c.sequence_parameter_sets.length
              + c.picture_parameter_sets.length
              + c.supplementary_enhancement_information.length) % 256])
        ++ (HvcCBox.roleSection 32 c.video_parameter_sets
            ++ (HvcCBox.roleSection 33 c.sequence_parameter_sets
              ++ (HvcCBox.roleSection 34 c.picture_parameter_sets
                ++ HvcCBox.roleSection 39 c.supplementary_enhancement_information))) := by
    simp [HvcCBox.writeBox, BoxHeader.write, List.append_assoc]
  have hD18 : (HvcCBox.writeBox c).drop 18
      = [(c.video_parameter_sets.length + c.sequence_parameter_sets.length
          + c.picture_parameter_sets.length
          + c.supplementary_enhancement_information.length) % 256]
        ++ (HvcCBox.roleSection 32 c.video_parameter_sets
          ++ (HvcCBox.roleSection 33 c.sequence_parameter_sets
            ++ (HvcCBox.roleSection 34 c.picture_parameter_sets
              ++ HvcCBox.roleSection 39 c.supplementary_enhancement_information))) := by
    rw [h18, List.drop_left' (by simp [beBytes_length])]
  have hD19 : (HvcCBox.writeBox c).drop 19
      = HvcCBox.roleSection 32 c.video_parameter_sets
        ++ (HvcCBox.roleSection 33 c.sequence_parameter_sets
          ++ (HvcCBox.roleSection 34 c.picture_parameter_sets
            ++ HvcCBox.roleSection 39 c.supplementary_enhancement_information)) := by
    rw [h19, List.drop_left' (by simp [beBytes_length])]
  have hD32 : (HvcCBox.writeBox c).drop
      (19 + (HvcCBox.roleSection 32 c.video_parameter_sets).length)
      = HvcCBox.roleSection 33 c.sequence_parameter_sets
        ++ (HvcCBox.roleSection 34 c.picture_parameter_sets
          ++ HvcCBox.roleSection 39 c.supplementary_enhancement_information) :=
    drop_chunk _ 19 _ _ hD19
  have hD33 : (HvcCBox.writeBox c).drop
      (19 + (HvcCBox.roleSection 32 c.video_parameter_sets).length
        + (HvcCBox.roleSection 33 c.sequence_parameter_sets).length)
      = HvcCBox.roleSection 34 c.picture_parameter_sets
        ++ HvcCBox.roleSection 39 c.supplementary_enhancement_information :=
    drop_chunk _ _ _ _ hD32
  have hD34 : (HvcCBox.writeBox c).drop
      (19 + (HvcCBox.roleSection 32 c.video_parameter_sets).length
        + (HvcCBox.roleSection 33 c.sequence_parameter_sets).length
        + (HvcCBox.roleSection 34 c.picture_parameter_sets).length)
      = HvcCBox.roleSection 39 c.supplementary_enhancement_information :=
    drop_chunk _ _ _ _ hD33
  refine ⟨?_, by omega, ?_, ?_, ?_, ?_⟩
  · rw [hD18]
    rfl
  · intro h
    rw [hD19, roleSection_take 32 _ _ h]
  · intro h
    rw [hD32, roleSection_take 33 _ _ h]
  · intro h
    rw [hD33, roleSection_take 34 _ _ h]
  · intro h
    rw [hD34, ← List.append_nil (HvcCBox.roleSection 39 _), roleSection_take 39 _ _ h]

/-- C10 witness: with 256 empty video-parameter units the written total
count byte is 0 = 256 mod 256, and the video-parameter sub-header declares
count 256 = 0x0100 (bytes 32, 1, 0). -/
theorem hvcc_write_truncated_counts_witness :
    ((HvcCBox.writeBox overflowExampleBox).drop 18).take 1 = [0] ∧
    ((HvcCBox.writeBox overflowExampleBox).drop 19).take 3 = [32, 1, 0] := by
  have h := hvcc_write_truncated_counts overflowExampleBox (by decide)
  obtain ⟨h1, h2, h3, _⟩ := h
  exact ⟨h1, h3 (by decide)⟩
